import Mathlib

/-!
Shallow embedding of the AuraSense dashboard view-model (src/src/App.js).

The component keeps React state
`db, auth, userId, latestReading, sensorReadings, error, isLoading`
and mutates it from four event handlers:
the initialization effect (config check + Firebase init + auth listener),
the auth-state-change callback, the data-fetching effect (opens the
Firestore subscription when `db && userId`), the `onSnapshot` success
handler and the `onSnapshot` error handler.  Each handler is embedded as
a pure state-transition function on a `ViewState` record; the external
Firestore query semantics (orderBy timestamp desc, limit 10) is modelled
where a claim needs it.
-/

namespace AuraSense

/-- Backend-native time representation (Firebase `Timestamp`), carrying
seconds and nanoseconds since the epoch. -/
structure FsTimestamp where
  seconds : Int
  nanoseconds : Int
  deriving DecidableEq, Repr

/-- The SDK conversion `Timestamp.toDate()`, modelled as epoch
milliseconds. -/
def FsTimestamp.toDate (t : FsTimestamp) : Int :=
  t.seconds * 1000 + t.nanoseconds / 1000000

/-- One document as delivered by a snapshot: `doc.id` plus the data
fields `temperature`, `humidity` and the (possibly absent)
backend-native `timestamp`. -/
structure Doc where
  id : String
  temperature : Rat
  humidity : Rat
  timestamp : Option FsTimestamp
  deriving DecidableEq, Repr

/-- A materialized sensor reading as pushed by the snapshot handler:
`{ id: doc.id, ...data, timestamp: data.timestamp ? data.timestamp.toDate() : null }`
(App.js lines 105-110). -/
structure Reading where
  id : String
  temperature : Rat
  humidity : Rat
  timestamp : Option Int
  deriving DecidableEq, Repr

/-- Materialization of one snapshot document into a `Reading`
(App.js lines 104-110). -/
def materialize (d : Doc) : Reading :=
  { id := d.id
    temperature := d.temperature
    humidity := d.humidity
    timestamp :=
      match d.timestamp with
      | some t => some t.toDate
      | none => none }

/-- The `readings` array built by `snapshot.forEach(... readings.push(...))`
(App.js lines 102-111): successive pushes onto an initially empty array. -/
def materializeAll (snap : List Doc) : List Reading :=
  snap.foldl (fun acc d => acc ++ [materialize d]) []

/-- A Firebase app/service handle, identified by the configuration it was
initialized from (`initializeApp(firebaseConfig)`, App.js line 38). -/
structure FirebaseApp where
  config : List (String × String)
  deriving DecidableEq, Repr

/-- The React state of the `App` component (App.js lines 9-20). -/
structure ViewState where
  db : Option FirebaseApp
  auth : Option FirebaseApp
  userId : Option String
  latestReading : Option Reading
  sensorReadings : List Reading
  error : Option String
  isLoading : Bool
  deriving DecidableEq, Repr

/-- The `useState` initializers (App.js lines 9-20): everything null/empty
and `isLoading = true`. -/
def initialState : ViewState :=
  { db := none
    auth := none
    userId := none
    latestReading := none
    sensorReadings := []
    error := none
    isLoading := true }

/-- The `onSnapshot` success handler (App.js lines 101-117): build
`readings` from the snapshot, replace `sensorReadings` with it, set
`latestReading` to `readings[0]` when `readings.length > 0`, and clear
`isLoading`.  The `error` field and the auth/connection fields are not
touched. -/
def processSnapshot (s : ViewState) (snap : List Doc) : ViewState :=
  let readings := materializeAll snap
  { s with
    sensorReadings := readings
    latestReading :=
      match readings with
      | [] => s.latestReading
      | r :: _ => some r
    isLoading := false }

/-- The `onSnapshot` error handler (App.js lines 118-122): set `error`
to the descriptive message and clear `isLoading`; nothing else changes. -/
def processError (s : ViewState) (msg : String) : ViewState :=
  { s with
    error := some ("Failed to fetch sensor data: " ++ msg)
    isLoading := false }

/-- The `onAuthStateChanged` callback in the signed-in case
(App.js lines 48-52): record the uid and clear `isLoading`. -/
def processAuthUser (s : ViewState) (uid : String) : ViewState :=
  { s with userId := some uid, isLoading := false }

/-- The `onAuthStateChanged` callback when sign-in fails
(App.js lines 63-67): set the authentication error and clear
`isLoading`. -/
def processAuthFailure (s : ViewState) (msg : String) : ViewState :=
  { s with
    error := some ("Authentication failed: " ++ msg)
    isLoading := false }

/-- The initialization effect (App.js lines 23-79), up to the auth
listener registration.  The configuration is the parsed
`__firebase_config`: `none` models a null parse result, `some []` an
absent variable (parsed default `{}`) or an empty object.  When the
config is missing or empty, set the configuration error, clear
`isLoading` and return without creating any handle (App.js lines 30-35);
otherwise initialize the Firestore and Auth handles and register the
auth listener.  The boolean reports whether the auth listener was
registered. -/
def initEffect (cfg : Option (List (String × String))) (s : ViewState) :
    ViewState × Bool :=
  match cfg with
  | none =>
    ({ s with
        error := some "Firebase configuration not found. Please ensure __firebase_config is set."
        isLoading := false }, false)
  | some kvs =>
    if kvs.isEmpty then
      ({ s with
          error := some "Firebase configuration not found. Please ensure __firebase_config is set."
          isLoading := false }, false)
    else
      ({ s with db := some { config := kvs }, auth := some { config := kvs } }, true)

/-- The parameters of the Firestore query opened by the data-fetching
effect (App.js lines 95-98): collection, orderBy field, direction and
limit. -/
structure QueryParams where
  coll : String
  orderByField : String
  descending : Bool
  limitCount : Nat
  deriving DecidableEq, Repr

/-- The query built by the data-fetching effect (App.js lines 95-98):
`query(collection(db, 'sensorReadings'), orderBy('timestamp', 'desc'), limit(10))`. -/
def sensorQuery : QueryParams :=
  { coll := "sensorReadings"
    orderByField := "timestamp"
    descending := true
    limitCount := 10 }

/-- The data-fetching effect (App.js lines 82-127): when both the
Firestore handle and the user id are available, clear any previous
error and open exactly one subscription with `sensorQuery`; otherwise
do nothing and open no subscription. -/
def dataEffect (s : ViewState) : ViewState × Option QueryParams :=
  if s.db.isSome && s.userId.isSome then
    ({ s with error := none }, some sensorQuery)
  else
    (s, none)

/-- The render function (App.js lines 130-149): the three mutually
exclusive screens. -/
inductive RenderMode where
  | loading
  | errorPanel
  | dashboard
  deriving DecidableEq, Repr

/-- Which screen the component renders (App.js lines 130-149): the
loading screen while `isLoading`, else the full-screen error panel when
`error` is set, else the dashboard. -/
def renderMode (s : ViewState) : RenderMode :=
  if s.isLoading then RenderMode.loading
  else if s.error.isSome then RenderMode.errorPanel
  else RenderMode.dashboard

/-- The sort key the Firestore query orders by: the document timestamp
as epoch milliseconds, with an absent timestamp sorting below every
present one. -/
def tsKey (d : Doc) : Option Int :=
  match d.timestamp with
  | some t => some t.toDate
  | none => none

/-- Newest-first order on documents: `a` precedes `b` when `b`'s key is
at most `a`'s (absent keys last). -/
def tsGe (a b : Doc) : Prop :=
  match tsKey a, tsKey b with
  | some x, some y => y ≤ x
  | some _, none => True
  | none, some _ => False
  | none, none => True

instance : DecidableRel tsGe := fun a b => by
  unfold tsGe
  cases tsKey a <;> cases tsKey b <;> infer_instance

/-- External data collaborator contract (spec §6): for a query over a
document collection with `orderBy = timestamp desc` and a limit, each
snapshot delivers the collection sorted newest-first, truncated to the
limit server-side. -/
def subscriptionSnapshot (collDocs : List Doc) (p : QueryParams) : List Doc :=
  (List.insertionSort tsGe collDocs).take p.limitCount

/-- All state transitions of the component, for trace-level claims. -/
inductive Event where
  | configLoaded (cfg : Option (List (String × String)))
  | authUser (uid : String)
  | authFailure (msg : String)
  | activateData
  | snapshot (docs : List Doc)
  | subError (msg : String)
  deriving DecidableEq, Repr

/-- One step of the component: dispatch an event to its handler. -/
def step (s : ViewState) : Event → ViewState
  | Event.configLoaded cfg => (initEffect cfg s).1
  | Event.authUser uid => processAuthUser s uid
  | Event.authFailure msg => processAuthFailure s msg
  | Event.activateData => (dataEffect s).1
  | Event.snapshot docs => processSnapshot s docs
  | Event.subError msg => processError s msg

/-- Run the component from the initial state over a list of events. -/
def run (evs : List Event) : ViewState :=
  evs.foldl step initialState

/-- The window/latest coherence property: whenever the reading window is
non-empty, `latestReading` is its first element. -/
def latestMatchesWindow (s : ViewState) : Prop :=
  ∀ r rs, s.sensorReadings = r :: rs → s.latestReading = some r

/-! Concrete sample data used by witnesses and counterexamples. -/

/-- A sample non-empty parsed configuration object. -/
def sampleConfig : List (String × String) := [("apiKey", "demo-key")]

/-- A sample snapshot document. -/
def sampleDoc : Doc :=
  { id := "r1"
    temperature := 22
    humidity := 40
    timestamp := some { seconds := 1700000000, nanoseconds := 0 } }

/-- The state after a successful bootstrap: config loaded, user signed
in, data effect activated. -/
def activatedState : ViewState :=
  run [Event.configLoaded (some sampleConfig), Event.authUser "u1",
       Event.activateData]

/-- The state right before the data effect runs: config loaded and user
signed in. -/
def readyState : ViewState :=
  run [Event.configLoaded (some sampleConfig), Event.authUser "u1"]

/-- The state after one successful snapshot. -/
def loadedState : ViewState := processSnapshot activatedState [sampleDoc]

/-- The state after a subscription error that follows one successful
snapshot. -/
def degradedState : ViewState := processError loadedState "network unavailable"

/-- A collection of 11 documents with strictly descending timestamps. -/
def elevenDocs : List Doc :=
  (List.range 11).map fun i =>
    { id := toString i
      temperature := 20
      humidity := 50
      timestamp := some { seconds := (1000 : Int) - i, nanoseconds := 0 } }

/-! Helper lemmas shared by several claims. -/

theorem foldl_push_eq_map (f : Doc → Reading) :
    ∀ (l : List Doc) (acc : List Reading),
      l.foldl (fun a d => a ++ [f d]) acc = acc ++ l.map f := by
  intro l
  induction l with
  | nil => intro acc; simp
  | cons d ds ih => intro acc; simp [List.foldl, ih]

theorem materializeAll_eq_map (snap : List Doc) :
    materializeAll snap = snap.map materialize := by
  unfold materializeAll
  simpa using foldl_push_eq_map materialize snap []

theorem initEffect_window (cfg : Option (List (String × String))) (s : ViewState) :
    ((initEffect cfg s).1).sensorReadings = s.sensorReadings ∧
    ((initEffect cfg s).1).latestReading = s.latestReading := by
  cases cfg with
  | none => exact ⟨rfl, rfl⟩
  | some kvs =>
    unfold initEffect
    by_cases hk : kvs.isEmpty <;> simp [hk]

theorem dataEffect_window (s : ViewState) :
    ((dataEffect s).1).sensorReadings = s.sensorReadings ∧
    ((dataEffect s).1).latestReading = s.latestReading := by
  unfold dataEffect
  by_cases hg : (s.db.isSome && s.userId.isSome) = true <;> simp [hg]

theorem processSnapshot_latestMatches (s : ViewState) (docs : List Doc) :
    latestMatchesWindow (processSnapshot s docs) := by
  intro r rs hw
  unfold processSnapshot at hw ⊢
  cases hm : materializeAll docs with
  | nil => simp [hm] at hw
  | cons a as =>
    simp only [hm] at hw ⊢
    cases hw
    rfl

theorem step_preserves_latestMatchesWindow (s : ViewState) (e : Event)
    (h : latestMatchesWindow s) : latestMatchesWindow (step s e) := by
  cases e with
  | configLoaded cfg =>
    intro r rs hw
    rw [show step s (Event.configLoaded cfg) = (initEffect cfg s).1 from rfl,
      (initEffect_window cfg s).1] at hw
    rw [show step s (Event.configLoaded cfg) = (initEffect cfg s).1 from rfl,
      (initEffect_window cfg s).2]
    exact h r rs hw
  | authUser uid => exact fun r rs hw => h r rs hw
  | authFailure msg => exact fun r rs hw => h r rs hw
  | activateData =>
    intro r rs hw
    rw [show step s Event.activateData = (dataEffect s).1 from rfl,
      (dataEffect_window s).1] at hw
    rw [show step s Event.activateData = (dataEffect s).1 from rfl,
      (dataEffect_window s).2]
    exact h r rs hw
  | snapshot docs => exact processSnapshot_latestMatches s docs
  | subError msg => exact fun r rs hw => h r rs hw

theorem foldl_preserves_latestMatchesWindow (evs : List Event) :
    ∀ s : ViewState, latestMatchesWindow s →
      latestMatchesWindow (evs.foldl step s) := by
  induction evs with
  | nil => exact fun s h => h
  | cons e es ih =>
    exact fun s h => ih (step s e) (step_preserves_latestMatchesWindow s e h)

theorem initialState_latestMatchesWindow : latestMatchesWindow initialState := by
  intro r rs hw
  exact absurd hw (by simp [initialState])

/-- Claim C1: a non-empty snapshot replaces the reading window with the
materialized snapshot, in order, and sets `latestReading` to the
materialization of the snapshot's first element; `isLoading` is
cleared. -/
theorem snapshot_replaces_window_and_latest (s : ViewState) (d : Doc) (ds : List Doc) :
    (processSnapshot s (d :: ds)).sensorReadings = (d :: ds).map materialize ∧
    (processSnapshot s (d :: ds)).latestReading = some (materialize d) ∧
    (processSnapshot s (d :: ds)).isLoading = false := by
  unfold processSnapshot
  rw [materializeAll_eq_map]
  exact ⟨rfl, rfl, rfl⟩

/-- Claim C2: an empty snapshot after a state whose `latestReading` is
set leaves `latestReading` unchanged (never resets it to null), empties
the reading window, and clears `isLoading`. -/
theorem empty_snapshot_retains_latest (s : ViewState) (r : Reading)
    (h : s.latestReading = some r) :
    (processSnapshot s []).latestReading = some r ∧
    (processSnapshot s []).sensorReadings = [] ∧
    (processSnapshot s []).isLoading = false :=
  ⟨h, rfl, rfl⟩

theorem empty_snapshot_retains_latest_witness :
    loadedState.latestReading = some (materialize sampleDoc) ∧
    ((processSnapshot loadedState []).latestReading = some (materialize sampleDoc) ∧
     (processSnapshot loadedState []).sensorReadings = [] ∧
     (processSnapshot loadedState []).isLoading = false) :=
  ⟨rfl, empty_snapshot_retains_latest loadedState (materialize sampleDoc) rfl⟩

/-- Claim C5: a subscription error delivered after a snapshot sets the
descriptive error message and clears `isLoading`, and leaves the
previous reading window and latest reading untouched. -/
theorem error_after_snapshot_preserves_data (s : ViewState) (docs : List Doc)
    (msg : String) :
    (processError (processSnapshot s docs) msg).error
        = some ("Failed to fetch sensor data: " ++ msg) ∧
    (processError (processSnapshot s docs) msg).isLoading = false ∧
    (processError (processSnapshot s docs) msg).sensorReadings
        = (processSnapshot s docs).sensorReadings ∧
    (processError (processSnapshot s docs) msg).latestReading
        = (processSnapshot s docs).latestReading :=
  ⟨rfl, rfl, rfl, rfl⟩

/-- Claim C9: processing the same snapshot twice in succession yields
the same `ViewState` as processing it once. -/
theorem snapshot_idempotent (s : ViewState) (docs : List Doc) :
    processSnapshot (processSnapshot s docs) docs = processSnapshot s docs := by
  unfold processSnapshot
  cases hm : materializeAll docs with
  | nil => simp [hm]
  | cons a as => simp [hm]

/-- Claim C3: in every state reachable from the initial state by any
sequence of handler invocations, `latestReading` is the head of the
reading window whenever the window is non-empty; moreover the snapshot
handler always replaces the window wholesale with a value computed from
the snapshot alone, independent of the previous window. -/
theorem window_invariant_preserved (evs : List Event) :
    latestMatchesWindow (run evs) ∧
    ∀ (s : ViewState) (docs : List Doc),
      (processSnapshot s docs).sensorReadings = docs.map materialize := by
  constructor
  · exact foldl_preserves_latestMatchesWindow evs initialState
      initialState_latestMatchesWindow
  · intro s docs
    unfold processSnapshot
    rw [materializeAll_eq_map]

theorem window_invariant_preserved_witness :
    (run [Event.configLoaded (some sampleConfig), Event.authUser "u1",
          Event.activateData, Event.snapshot [sampleDoc]]).latestReading
      = some (materialize sampleDoc) :=
  (window_invariant_preserved
      [Event.configLoaded (some sampleConfig), Event.authUser "u1",
       Event.activateData, Event.snapshot [sampleDoc]]).1
    (materialize sampleDoc) [] rfl

/-- Claim C4: when both the Firestore handle and the resolved identity
are available, the data effect opens exactly one subscription, over the
`sensorReadings` collection ordered by `timestamp` descending with
limit 10; when either is missing, no subscription is opened. -/
theorem activation_opens_single_subscription (s : ViewState) :
    (s.db.isSome = true → s.userId.isSome = true →
      (dataEffect s).2 =
        some { coll := "sensorReadings", orderByField := "timestamp",
               descending := true, limitCount := 10 }) ∧
    (s.db = none ∨ s.userId = none → (dataEffect s).2 = none) := by
  constructor
  · intro hdb huid
    simp [dataEffect, hdb, huid, sensorQuery]
  · intro h
    rcases h with h | h <;> simp [dataEffect, h]

theorem activation_opens_single_subscription_witness :
    (readyState.db.isSome = true ∧ readyState.userId.isSome = true ∧
      (dataEffect readyState).2 =
        some { coll := "sensorReadings", orderByField := "timestamp",
               descending := true, limitCount := 10 }) ∧
    (initialState.userId = none ∧ (dataEffect initialState).2 = none) :=
  ⟨⟨rfl, rfl, (activation_opens_single_subscription readyState).1 rfl rfl⟩,
   ⟨rfl, (activation_opens_single_subscription initialState).2 (Or.inr rfl)⟩⟩

/-- Claim C6: with an absent (null) or empty parsed configuration, the
initialization effect stops loading, sets the exact configuration error
message, leaves the reading window empty, creates no Firestore or Auth
handle, registers no auth listener, and the data effect run on the
resulting state opens no subscription. -/
theorem missing_config_is_terminal :
    ((initEffect (some []) initialState).1.isLoading = false ∧
     (initEffect (some []) initialState).1.error =
       some "Firebase configuration not found. Please ensure __firebase_config is set." ∧
     (initEffect (some []) initialState).1.sensorReadings = [] ∧
     (initEffect (some []) initialState).1.db = none ∧
     (initEffect (some []) initialState).1.auth = none ∧
     (initEffect (some []) initialState).2 = false ∧
     (dataEffect (initEffect (some []) initialState).1).2 = none) ∧
    ((initEffect none initialState).1.isLoading = false ∧
     (initEffect none initialState).1.error =
       some "Firebase configuration not found. Please ensure __firebase_config is set." ∧
     (initEffect none initialState).1.sensorReadings = [] ∧
     (initEffect none initialState).1.db = none ∧
     (initEffect none initialState).1.auth = none ∧
     (initEffect none initialState).2 = false ∧
     (dataEffect (initEffect none initialState).1).2 = none) :=
  ⟨⟨rfl, rfl, rfl, rfl, rfl, rfl, rfl⟩, ⟨rfl, rfl, rfl, rfl, rfl, rfl, rfl⟩⟩

/-- Claim C7 as stated is false on the code: in a state reached after a
successful snapshot followed by a subscription error, loading is over,
an error is set, the reading window still holds data, and yet the
component renders the full-screen error panel, not the dashboard. -/
theorem render_error_panel_despite_prior_data :
    degradedState.isLoading = false ∧
    degradedState.error.isSome = true ∧
    degradedState.sensorReadings ≠ [] ∧
    renderMode degradedState ≠ RenderMode.dashboard := by
  refine ⟨rfl, rfl, ?_, ?_⟩ <;> decide

/-- Claim C7, amended: the component renders the loading indicator while
`isLoading`; once loading is over it renders the full-screen error panel
whenever `error` is set, regardless of any prior successful load, and
the dashboard only when `error` is null. -/
theorem render_mode_cases (s : ViewState) :
    (s.isLoading = true → renderMode s = RenderMode.loading) ∧
    (s.isLoading = false → s.error.isSome = true →
      renderMode s = RenderMode.errorPanel) ∧
    (s.isLoading = false → s.error = none →
      renderMode s = RenderMode.dashboard) := by
  refine ⟨fun h1 => ?_, fun h1 h2 => ?_, fun h1 h2 => ?_⟩
  · simp [renderMode, h1]
  · simp [renderMode, h1, h2]
  · simp [renderMode, h1, h2]

theorem render_mode_cases_witness :
    degradedState.isLoading = false ∧
    degradedState.error.isSome = true ∧
    renderMode degradedState = RenderMode.errorPanel :=
  ⟨rfl, rfl, (render_mode_cases degradedState).2.1 rfl rfl⟩

/-- Claim C8: if 11 documents sorted by timestamp descending reach the
subscription, the delivered snapshot keeps the 10 newest, and the
snapshot handler stores exactly their materializations, in the delivered
order, so the reading window has length 10 and is neither reordered nor
further truncated. -/
theorem eleven_records_keep_ten_newest (s : ViewState) (collDocs : List Doc)
    (hlen : collDocs.length = 11) (hsorted : List.Sorted tsGe collDocs) :
    (processSnapshot s (subscriptionSnapshot collDocs sensorQuery)).sensorReadings
        = (collDocs.take 10).map materialize ∧
    (processSnapshot s (subscriptionSnapshot collDocs sensorQuery)).sensorReadings.length
        = 10 := by
  have hss : subscriptionSnapshot collDocs sensorQuery = collDocs.take 10 := by
    unfold subscriptionSnapshot
    rw [hsorted.insertionSort_eq]
    rfl
  have hwin : (processSnapshot s (subscriptionSnapshot collDocs sensorQuery)).sensorReadings
      = (collDocs.take 10).map materialize := by
    unfold processSnapshot
    rw [materializeAll_eq_map, hss]
  refine ⟨hwin, ?_⟩
  rw [hwin, List.length_map, List.length_take, hlen]
  decide

theorem eleven_records_keep_ten_newest_witness :
    elevenDocs.length = 11 ∧ List.Sorted tsGe elevenDocs ∧
    (processSnapshot initialState
        (subscriptionSnapshot elevenDocs sensorQuery)).sensorReadings.length = 10 :=
  ⟨rfl, by decide,
   (eleven_records_keep_ten_newest initialState elevenDocs rfl (by decide)).2⟩

/-- Claim C10: the snapshot handler leaves `error` (and the connection,
auth and identity fields) unchanged, so a successful snapshot never
clears a previously set error; the data effect clears `error` when it
activates with both handle and identity present; and among all handler
steps, only the data-effect activation can take `error` from set back to
null. -/
theorem snapshot_never_clears_error (s : ViewState) (docs : List Doc) (e : Event) :
    (processSnapshot s docs).error = s.error ∧
    (processSnapshot s docs).db = s.db ∧
    (processSnapshot s docs).auth = s.auth ∧
    (processSnapshot s docs).userId = s.userId ∧
    (s.db.isSome = true → s.userId.isSome = true →
      (dataEffect s).1.error = none) ∧
    (s.error ≠ none → (step s e).error = none → e = Event.activateData) := by
  refine ⟨rfl, rfl, rfl, rfl, fun hdb huid => ?_, fun hne hz => ?_⟩
  · simp [dataEffect, hdb, huid]
  · cases e with
    | configLoaded cfg =>
      exfalso
      cases cfg with
      | none => exact Option.some_ne_none _ hz
      | some kvs =>
        by_cases hk : kvs.isEmpty
        · simp only [step, initEffect, hk, if_true] at hz
          exact Option.some_ne_none _ hz
        · simp only [step, initEffect, hk, if_false] at hz
          exact hne hz
    | authUser uid => exact absurd hz hne
    | authFailure msg => exact absurd hz (Option.some_ne_none _)
    | activateData => rfl
    | snapshot ds => exact absurd hz hne
    | subError msg => exact absurd hz (Option.some_ne_none _)

theorem snapshot_never_clears_error_witness :
    (readyState.db.isSome = true ∧ readyState.userId.isSome = true ∧
      (dataEffect readyState).1.error = none) ∧
    (degradedState.error ≠ none ∧
      (step degradedState Event.activateData).error = none) :=
  ⟨⟨rfl, rfl,
    (snapshot_never_clears_error readyState [] Event.activateData).2.2.2.2.1 rfl rfl⟩,
   ⟨by decide, by decide⟩⟩

end AuraSense
